import Mathlib

/-!
Verification development for the payment-intent clarifier core
(`lib/ai-processor.ts` and the `process-payment` route handler).

The TypeScript code is shallowly embedded:
* JSON values (the results of `JSON.parse`) are the inductive `Json`;
  `jsonParse` models `JSON.parse` (fuelled recursive-descent over the
  standard JSON grammar; it returns `none` where `JSON.parse` throws).
* JavaScript truthiness, `||` defaulting, property access (which throws a
  `TypeError` on `null`), `String.prototype.slice` with negative indices,
  and the code-fence-stripping regex replaces are each embedded as
  explicit functions.
* The two OpenAI chat-completion calls are external: each call site takes
  a `GatewayOutcome` describing what the awaited call did (threw, or
  returned a message content that is absent or a string).
* The current instant (`new Date().toISOString()`) is threaded as a
  string parameter.
* Thrown-and-not-caught JavaScript exceptions are `Except.error`.
-/

/-- A JSON number as parsed from its literal: the value is
`mant * 10 ^ exp`.  The representation is a scaled decimal rather than a
float; IEEE-754 rounding is not modelled, which is exact for the integer
scores and short decimal amounts the code manipulates.  An integer literal
parses with `exp = 0`, so the representations the embedded code compares
and produces coincide with the values. -/
structure JNum where
  mant : Int
  exp : Int
deriving DecidableEq

/-- The number denoted by an integer literal. -/
def JNum.ofInt (n : Int) : JNum := ⟨n, 0⟩

/-- Whether the denoted value `mant * 10 ^ exp` is zero. -/
def JNum.isZero (q : JNum) : Bool := q.mant = 0

/-- Compares `value < b` for an integer bound `b`, computed exactly on the scaled
decimal: multiply both sides by the positive power of ten that clears the
exponent. -/
def JNum.ltInt (q : JNum) (b : Int) : Bool :=
  if 0 ≤ q.exp then q.mant * 10 ^ q.exp.toNat < b else q.mant < b * 10 ^ (-q.exp).toNat

/-- A JavaScript value produced by `JSON.parse`: null, boolean, number,
string, array or object. -/
inductive Json where
  | null : Json
  | bool (b : Bool) : Json
  | num (q : JNum) : Json
  | str (s : String) : Json
  | arr (elems : List Json) : Json
  | obj (members : List (String × Json)) : Json

mutual

/-- Decidable equality for `Json` (the derive handler does not support this
nested inductive, so the three mutually recursive cases are spelled out). -/
def Json.decEq : (a b : Json) → Decidable (a = b)
  | .null, .null => isTrue rfl
  | .bool a, .bool b =>
    if h : a = b then isTrue (h ▸ rfl) else isFalse (fun e => h (Json.bool.inj e))
  | .num a, .num b =>
    if h : a = b then isTrue (h ▸ rfl) else isFalse (fun e => h (Json.num.inj e))
  | .str a, .str b =>
    if h : a = b then isTrue (h ▸ rfl) else isFalse (fun e => h (Json.str.inj e))
  | .arr xs, .arr ys =>
    match Json.decEqList xs ys with
    | isTrue h => isTrue (h ▸ rfl)
    | isFalse h => isFalse (fun e => h (Json.arr.inj e))
  | .obj xs, .obj ys =>
    match Json.decEqMembers xs ys with
    | isTrue h => isTrue (h ▸ rfl)
    | isFalse h => isFalse (fun e => h (Json.obj.inj e))
  | .null, .bool _ => isFalse (fun h => nomatch h)
  | .null, .num _ => isFalse (fun h => nomatch h)
  | .null, .str _ => isFalse (fun h => nomatch h)
  | .null, .arr _ => isFalse (fun h => nomatch h)
  | .null, .obj _ => isFalse (fun h => nomatch h)
  | .bool _, .null => isFalse (fun h => nomatch h)
  | .bool _, .num _ => isFalse (fun h => nomatch h)
  | .bool _, .str _ => isFalse (fun h => nomatch h)
  | .bool _, .arr _ => isFalse (fun h => nomatch h)
  | .bool _, .obj _ => isFalse (fun h => nomatch h)
  | .num _, .null => isFalse (fun h => nomatch h)
  | .num _, .bool _ => isFalse (fun h => nomatch h)
  | .num _, .str _ => isFalse (fun h => nomatch h)
  | .num _, .arr _ => isFalse (fun h => nomatch h)
  | .num _, .obj _ => isFalse (fun h => nomatch h)
  | .str _, .null => isFalse (fun h => nomatch h)
  | .str _, .bool _ => isFalse (fun h => nomatch h)
  | .str _, .num _ => isFalse (fun h => nomatch h)
  | .str _, .arr _ => isFalse (fun h => nomatch h)
  | .str _, .obj _ => isFalse (fun h => nomatch h)
  | .arr _, .null => isFalse (fun h => nomatch h)
  | .arr _, .bool _ => isFalse (fun h => nomatch h)
  | .arr _, .num _ => isFalse (fun h => nomatch h)
  | .arr _, .str _ => isFalse (fun h => nomatch h)
  | .arr _, .obj _ => isFalse (fun h => nomatch h)
  | .obj _, .null => isFalse (fun h => nomatch h)
  | .obj _, .bool _ => isFalse (fun h => nomatch h)
  | .obj _, .num _ => isFalse (fun h => nomatch h)
  | .obj _, .str _ => isFalse (fun h => nomatch h)
  | .obj _, .arr _ => isFalse (fun h => nomatch h)

/-- Decidable equality for lists of JSON values. -/
def Json.decEqList : (a b : List Json) → Decidable (a = b)
  | [], [] => isTrue rfl
  | x :: xs, y :: ys =>
    match Json.decEq x y, Json.decEqList xs ys with
    | isTrue h1, isTrue h2 => isTrue (by rw [h1, h2])
    | isFalse h1, _ => isFalse (fun e => h1 (List.cons.inj e).1)
    | _, isFalse h2 => isFalse (fun e => h2 (List.cons.inj e).2)
  | [], _ :: _ => isFalse (fun h => nomatch h)
  | _ :: _, [] => isFalse (fun h => nomatch h)

/-- Decidable equality for object member lists. -/
def Json.decEqMembers : (a b : List (String × Json)) → Decidable (a = b)
  | [], [] => isTrue rfl
  | (k1, v1) :: xs, (k2, v2) :: ys =>
    if hk : k1 = k2 then
      match Json.decEq v1 v2, Json.decEqMembers xs ys with
      | isTrue hv, isTrue ht => isTrue (by rw [hk, hv, ht])
      | isFalse hv, _ => isFalse (fun e => hv (congrArg Prod.snd (List.cons.inj e).1))
      | _, isFalse ht => isFalse (fun e => ht (List.cons.inj e).2)
    else isFalse (fun e => hk (congrArg Prod.fst (List.cons.inj e).1))
  | [], _ :: _ => isFalse (fun h => nomatch h)
  | _ :: _, [] => isFalse (fun h => nomatch h)

end

instance : DecidableEq Json := Json.decEq

set_option maxRecDepth 8192

/-- JavaScript truthiness of a defined value: `null`, `false`, `0` and the
empty string are falsy; every array and object is truthy. -/
def Json.truthy : Json → Bool
  | .null => false
  | .bool b => b
  | .num q => !q.isZero
  | .str s => decide (s ≠ "")
  | .arr _ => true
  | .obj _ => true

/-- Truthiness of a possibly-undefined value (`none` = `undefined`). -/
def jsTruthy : Option Json → Bool
  | none => false
  | some j => j.truthy

/-- Embeds `x || d` on a possibly-undefined `x`: the value itself when truthy,
otherwise the default `d`. -/
def jsOr (x : Option Json) (d : Json) : Json :=
  match x with
  | some v => if v.truthy then v else d
  | none => d

/-- Property read `o.k` on an object value; JavaScript object literals let a
later duplicate key overwrite an earlier one, so the last binding wins.
Reading a property of a non-object non-null value yields `undefined`. -/
def Json.member (j : Json) (k : String) : Option Json :=
  match j with
  | .obj kvs => (kvs.reverse.find? (fun kv => kv.1 = k)).map (fun kv => kv.2)
  | _ => none

/-- Property read `j.k` as executed by JavaScript: accessing a property of
`null` throws a `TypeError` (`Except.error`); otherwise it evaluates to
`j.member k` (possibly `undefined`). -/
def Json.getProp (j : Json) (k : String) : Except Unit (Option Json) :=
  match j with
  | .null => .error ()
  | _ => .ok (j.member k)

/-! ## A model of `JSON.parse` -/

/-- Skip JSON insignificant whitespace. -/
def skipWs : List Char → List Char
  | [] => []
  | c :: cs => if c = ' ' ∨ c = '\t' ∨ c = '\n' ∨ c = '\r' then skipWs cs else c :: cs

/-- The `{` character (written via its code point). -/
def braceOpen : Char := Char.ofNat 123

/-- The `}` character (written via its code point). -/
def braceClose : Char := Char.ofNat 125

/-- Value of one hexadecimal digit. -/
def hexVal (c : Char) : Option Nat :=
  if '0' ≤ c ∧ c ≤ '9' then some (c.toNat - '0'.toNat)
  else if 'a' ≤ c ∧ c ≤ 'f' then some (c.toNat - 'a'.toNat + 10)
  else if 'A' ≤ c ∧ c ≤ 'F' then some (c.toNat - 'A'.toNat + 10)
  else none

/-- Body of a JSON string literal, after the opening quote.  Handles the
JSON escapes including `\uXXXX` with surrogate pairs; a lone surrogate
escape is rejected (an approximation: JavaScript strings can hold lone
UTF-16 surrogates, Unicode scalar values cannot). -/
def parseStringAux : Nat → List Char → List Char → Option (String × List Char)
  | 0, _, _ => none
  | _ + 1, _, [] => none
  | fuel + 1, acc, c :: rest =>
    if c = '"' then some (⟨acc.reverse⟩, rest)
    else if c = '\\' then
      match rest with
      | [] => none
      | e :: rest2 =>
        if e = '"' ∨ e = '\\' ∨ e = '/' then parseStringAux fuel (e :: acc) rest2
        else if e = 'b' then parseStringAux fuel (Char.ofNat 8 :: acc) rest2
        else if e = 'f' then parseStringAux fuel (Char.ofNat 12 :: acc) rest2
        else if e = 'n' then parseStringAux fuel ('\n' :: acc) rest2
        else if e = 'r' then parseStringAux fuel ('\r' :: acc) rest2
        else if e = 't' then parseStringAux fuel ('\t' :: acc) rest2
        else if e = 'u' then
          match rest2 with
          | h1 :: h2 :: h3 :: h4 :: rest3 =>
            match hexVal h1, hexVal h2, hexVal h3, hexVal h4 with
            | some a, some b, some c2, some d =>
              let code := ((a * 16 + b) * 16 + c2) * 16 + d
              if 0xD800 ≤ code ∧ code ≤ 0xDBFF then
                match rest3 with
                | '\\' :: 'u' :: g1 :: g2 :: g3 :: g4 :: rest4 =>
                  match hexVal g1, hexVal g2, hexVal g3, hexVal g4 with
                  | some a2, some b2, some c3, some d2 =>
                    let code2 := ((a2 * 16 + b2) * 16 + c3) * 16 + d2
                    if 0xDC00 ≤ code2 ∧ code2 ≤ 0xDFFF then
                      parseStringAux fuel
                        (Char.ofNat (0x10000 + (code - 0xD800) * 0x400 + (code2 - 0xDC00)) :: acc)
                        rest4
                    else none
                  | _, _, _, _ => none
                | _ => none
              else if 0xDC00 ≤ code ∧ code ≤ 0xDFFF then none
              else parseStringAux fuel (Char.ofNat code :: acc) rest3
            | _, _, _, _ => none
          | _ => none
        else none
    else if c.toNat < 32 then none
    else parseStringAux fuel (c :: acc) rest

/-- Longest digit run at the head of the input, and the remainder. -/
def spanDigits : List Char → List Char × List Char
  | [] => ([], [])
  | c :: cs =>
    if c.isDigit then
      let (d, r) := spanDigits cs
      (c :: d, r)
    else ([], c :: cs)

/-- Natural number denoted by a digit run. -/
def digitsToNat (ds : List Char) : Nat :=
  ds.foldl (fun n c => n * 10 + (c.toNat - '0'.toNat)) 0

/-- Fraction part of a JSON number (empty when there is no `.`). -/
def parseFrac : List Char → Option (List Char × List Char)
  | '.' :: r =>
    let (ds, r2) := spanDigits r
    if ds = [] then none else some (ds, r2)
  | cs => some ([], cs)

/-- Exponent part of a JSON number (`0` when there is no `e`/`E`). -/
def parseExp : List Char → Option (Int × List Char)
  | [] => some (0, [])
  | c :: r =>
    if c = 'e' ∨ c = 'E' then
      let (esign, r1) : Int × List Char :=
        match r with
        | '+' :: r2 => (1, r2)
        | '-' :: r2 => (-1, r2)
        | _ => (1, r)
      let (ds, r2) := spanDigits r1
      if ds = [] then none else some (esign * (digitsToNat ds : Int), r2)
    else some (0, c :: r)

/-- A JSON number literal: optional minus, integer part with no leading
zero, optional fraction, optional exponent. -/
def parseNumber (cs : List Char) : Option (Json × List Char) :=
  let (neg, cs1) : Bool × List Char :=
    match cs with
    | '-' :: r => (true, r)
    | _ => (false, cs)
  let (intDs, cs2) := spanDigits cs1
  if intDs = [] then none
  else if intDs.length > 1 ∧ intDs.headD '0' = '0' then none
  else
    match parseFrac cs2 with
    | none => none
    | some (fracDs, cs3) =>
      match parseExp cs3 with
      | none => none
      | some (e, cs4) =>
        let mant : Int := (digitsToNat (intDs ++ fracDs) : Int)
        let mant := if neg then -mant else mant
        some (.num ⟨mant, e - (fracDs.length : Int)⟩, cs4)

mutual

/-- A JSON value (fuelled recursive descent). -/
def parseValue : Nat → List Char → Option (Json × List Char)
  | 0, _ => none
  | fuel + 1, cs =>
    match skipWs cs with
    | [] => none
    | c :: rest =>
      if c = 'n' then
        match rest with
        | 'u' :: 'l' :: 'l' :: r => some (.null, r)
        | _ => none
      else if c = 't' then
        match rest with
        | 'r' :: 'u' :: 'e' :: r => some (.bool true, r)
        | _ => none
      else if c = 'f' then
        match rest with
        | 'a' :: 'l' :: 's' :: 'e' :: r => some (.bool false, r)
        | _ => none
      else if c = '"' then
        match parseStringAux (rest.length + 1) [] rest with
        | some (s, r) => some (.str s, r)
        | none => none
      else if c = '[' then
        match skipWs rest with
        | ']' :: r => some (.arr [], r)
        | cs2 => parseElems fuel cs2 []
      else if c = braceOpen then
        match skipWs rest with
        | [] => none
        | c2 :: r => if c2 = braceClose then some (.obj [], r) else parseMembers fuel (c2 :: r) []
      else parseNumber (c :: rest)

/-- Comma-separated array elements up to the closing bracket. -/
def parseElems : Nat → List Char → List Json → Option (Json × List Char)
  | 0, _, _ => none
  | fuel + 1, cs, acc =>
    match parseValue fuel cs with
    | none => none
    | some (v, rest) =>
      match skipWs rest with
      | ',' :: r => parseElems fuel r (acc ++ [v])
      | ']' :: r => some (.arr (acc ++ [v]), r)
      | _ => none

/-- Comma-separated `"key": value` object members up to the closing brace. -/
def parseMembers : Nat → List Char → List (String × Json) → Option (Json × List Char)
  | 0, _, _ => none
  | fuel + 1, cs, acc =>
    match skipWs cs with
    | '"' :: rest =>
      match parseStringAux (rest.length + 1) [] rest with
      | none => none
      | some (k, rest2) =>
        match skipWs rest2 with
        | ':' :: rest3 =>
          match parseValue fuel rest3 with
          | none => none
          | some (v, rest4) =>
            match skipWs rest4 with
            | [] => none
            | c :: r =>
              if c = ',' then parseMembers fuel r (acc ++ [(k, v)])
              else if c = braceClose then some (.obj (acc ++ [(k, v)]), r)
              else none
        | _ => none
    | _ => none

end

/-- Models `JSON.parse`: parse one value and require only whitespace after it;
`none` models a thrown `SyntaxError`.  The fuel bound exceeds any possible
recursion depth, since every two nested calls consume at least one
character. -/
def jsonParse (s : String) : Option Json :=
  match parseValue (2 * s.length + 4) s.data with
  | some (v, rest) => if skipWs rest = [] then some v else none
  | none => none

/-! ## Code-fence stripping and JS string helpers -/

/-- One global regex replace of `tag` followed by an optional newline with
the empty string: scan left to right, removing each non-overlapping match. -/
def stripTagAux (tag : List Char) : Nat → List Char → List Char
  | 0, cs => cs
  | fuel + 1, cs =>
    if tag.isPrefixOf cs then
      match cs.drop tag.length with
      | '\n' :: r => stripTagAux tag fuel r
      | r => stripTagAux tag fuel r
    else
      match cs with
      | [] => []
      | c :: r => c :: stripTagAux tag fuel r

/-- A character removed by `String.prototype.trim`: ASCII whitespace plus
the common Unicode space characters (an approximation of the full Zs
category, covering every character the gateway responses could plausibly
contain). -/
def isJsSpace (c : Char) : Bool :=
  c = ' ' ∨ c = '\t' ∨ c = '\n' ∨ c = '\r' ∨ c.toNat = 11 ∨ c.toNat = 12 ∨
    c.toNat = 0xA0 ∨ c.toNat = 0x2028 ∨ c.toNat = 0x2029 ∨ c.toNat = 0xFEFF

/-- Embeds `s.trim()`: drop leading and trailing whitespace. -/
def jsTrim (s : String) : String :=
  ⟨((s.data.dropWhile isJsSpace).reverse.dropWhile isJsSpace).reverse⟩

/-- Embeds `response.replace(/```json\n?/g, '').replace(/```\n?/g, '').trim()`. -/
def stripFences (s : String) : String :=
  let pass1 := stripTagAux "```json".data (s.length + 1) s.data
  let pass2 := stripTagAux "```".data (pass1.length + 1) pass1
  jsTrim ⟨pass2⟩

/-- Clamp a `String.prototype.slice` index to `[0, len]`: negative indices
count from the end. -/
def jsSliceIdx (len : Nat) (i : Int) : Nat :=
  if i < 0 then ((len : Int) + i).toNat else min i.toNat len

/-- Embeds `s.slice(a)` / `s.slice(a, b)`; `none` for an omitted end index. -/
def jsSlice (s : String) (a : Int) (b : Option Int) : String :=
  let len := s.data.length
  let lo := jsSliceIdx len a
  let hi := match b with
    | none => len
    | some i => jsSliceIdx len i
  ⟨(s.data.drop lo).take (hi - lo)⟩

/-- Embeds `s.replace(/[^0-9]/g, '')`: keep only the decimal digits. -/
def digitsOf (s : String) : String := ⟨s.data.filter Char.isDigit⟩

/-- Embeds `s.split('T')[0]`: the prefix of `s` before its first `'T'` (the whole
string when there is none), which is what indexing the split at 0 yields. -/
def splitHeadAtT (s : String) : String := ⟨s.data.takeWhile (fun c => c ≠ 'T')⟩

/-! ## The processor (`lib/ai-processor.ts`) -/

/-- Outcome of one awaited `openai.chat.completions.create(...)` call, as
observed at its call site: either the promise rejected (a network or API
error was thrown), or it resolved and
`completion.choices[0]?.message?.content` evaluated to the given value
(`none` when the optional chain produced `undefined` or the content was
`null`). -/
inductive GatewayOutcome where
  | threw : GatewayOutcome
  | returned (content : Option String) : GatewayOutcome
deriving DecidableEq

/-- The record built by `extractPaymentIntent` from the parsed response.
TypeScript erases the `PaymentIntent` interface at runtime, so each field
holds whatever JSON value the response supplied (`none` = `undefined`,
for an absent key).  Extraction always assigns `currency` (defaulting it
with `|| 'EUR'`), but the field is optional here because the interface
leaves it optional. -/
structure RawPaymentIntent where
  recipientName : Option Json
  iban : Option Json
  amount : Option Json
  currency : Option Json
  reference : Option Json
  confidence : Option Json
  suggestedPaymentType : Option Json
deriving DecidableEq

/-- The exceptions `extractPaymentIntent` can let escape. -/
inductive ExtractError where
  | gatewayThrew : ExtractError
  | noResponse : ExtractError
  | malformedResponse : ExtractError
deriving DecidableEq

/-- Source `extractPaymentIntent`.  The completions call is not wrapped in a local
try, so its rejection escapes (`gatewayThrew`).  `if (!response)` throws
`'No AI response received'` when the content is absent or the empty
string.  The try block strips code fences and runs `JSON.parse`; a parse
failure, or the `TypeError` from reading a property of a parsed `null`,
is caught and rethrown as `'Invalid AI response format'`
(`malformedResponse`).  The prompt embeds `userInput`, but the returned
record depends only on the gateway response. -/
def extractPaymentIntent (g : GatewayOutcome) : Except ExtractError RawPaymentIntent :=
  match g with
  | .threw => .error .gatewayThrew
  | .returned none => .error .noResponse
  | .returned (some response) =>
    if response = "" then .error .noResponse
    else
      match jsonParse (stripFences response) with
      | none => .error .malformedResponse
      | some .null => .error .malformedResponse
      | some parsed =>
        .ok { recipientName := parsed.member "recipientName"
              iban := parsed.member "iban"
              amount := parsed.member "amount"
              currency := some (jsOr (parsed.member "currency") (.str "EUR"))
              reference := parsed.member "reference"
              confidence := parsed.member "confidence"
              suggestedPaymentType := parsed.member "suggestedPaymentType" }

/-- The record returned by `analyzeFraudRisk` (interface `FraudFlags` in
the source).  At runtime `riskLevel` is whatever JSON value the response
supplied (`none` = `undefined`); `flags` and `score` are always assigned,
being defaulted with `||`. -/
structure FraudFlagsRaw where
  riskLevel : Option Json
  flags : Json
  score : Json
deriving DecidableEq

/-- The fallback assessment returned when the scoring gateway yields no
content. -/
def fallbackUnavailable : FraudFlagsRaw :=
  { riskLevel := some (.str "medium"), flags := .arr [.str "Analysis unavailable"],
    score := .num ⟨50, 0⟩ }

/-- The fallback assessment returned when the scoring response cannot be
parsed. -/
def fallbackAnalysisError : FraudFlagsRaw :=
  { riskLevel := some (.str "medium"), flags := .arr [.str "Analysis error"],
    score := .num ⟨50, 0⟩ }

/-- Source `analyzeFraudRisk`.  The completions call is again outside any local
try, so its rejection escapes.  Absent or empty content returns the
`'Analysis unavailable'` fallback; a `JSON.parse` failure (or the
`TypeError` from reading a property of a parsed `null`) is caught and
returns the `'Analysis error'` fallback; otherwise `riskLevel` is passed
through verbatim and `flags`/`score` are defaulted with `|| []` and
`|| 50`.  The prompt embeds `userInput` and the serialized intent, but
the returned record depends only on the gateway response. -/
def analyzeFraudRisk (g : GatewayOutcome) : Except Unit FraudFlagsRaw :=
  match g with
  | .threw => .error ()
  | .returned none => .ok fallbackUnavailable
  | .returned (some response) =>
    if response = "" then .ok fallbackUnavailable
    else
      match jsonParse (stripFences response) with
      | none => .ok fallbackAnalysisError
      | some .null => .ok fallbackAnalysisError
      | some parsed =>
        .ok { riskLevel := parsed.member "riskLevel"
              flags := jsOr (parsed.member "flags") (.arr [])
              score := jsOr (parsed.member "score") (.num ⟨50, 0⟩) }

/-- What the two gateway calls of one pipeline run did. -/
structure ProcessorInputs where
  extractOutcome : GatewayOutcome
  scoreOutcome : GatewayOutcome
deriving DecidableEq

/-- Source `processPaymentIntent`: extraction, then fraud analysis.  Any
exception thrown by either step lands in the surrounding catch, which
rethrows a single `Error('Failed to process payment intent')`. -/
def processPaymentIntent (i : ProcessorInputs) :
    Except Unit (RawPaymentIntent × FraudFlagsRaw) :=
  match extractPaymentIntent i.extractOutcome with
  | .error _ => .error ()
  | .ok intent =>
    match analyzeFraudRisk i.scoreOutcome with
    | .error _ => .error ()
    | .ok fraudAnalysis => .ok (intent, fraudAnalysis)

/-! ## The declared data model: interface `PaymentIntent` -/

/-- The union `suggestedPaymentType: 'SEPA' | 'FasterPayments' | 'Unknown'`. -/
inductive PaymentType where
  | SEPA : PaymentType
  | FasterPayments : PaymentType
  | Unknown : PaymentType
deriving DecidableEq

/-- The string a `PaymentType` is at runtime. -/
def PaymentType.toStr : PaymentType → String
  | .SEPA => "SEPA"
  | .FasterPayments => "FasterPayments"
  | .Unknown => "Unknown"

/-- An intent conforming to the `PaymentIntent` interface of the source:
optional string fields, an optional numeric amount, a required numeric
confidence and the three-valued payment type. -/
structure PaymentIntent where
  recipientName : Option String
  iban : Option String
  amount : Option JNum
  currency : Option String
  reference : Option String
  confidence : JNum
  suggestedPaymentType : PaymentType
deriving DecidableEq

/-- The runtime value of an interface-conforming intent. -/
def PaymentIntent.toRaw (i : PaymentIntent) : RawPaymentIntent :=
  { recipientName := i.recipientName.map .str
    iban := i.iban.map .str
    amount := i.amount.map .num
    currency := i.currency.map .str
    reference := i.reference.map .str
    confidence := some (.num i.confidence)
    suggestedPaymentType := some (.str i.suggestedPaymentType.toStr) }

/-! ## The scheme formatters and the route handler -/

/-- Embeds `v?.f(...)` for a string method: `undefined` and `null` short-circuit
to `undefined`; a string receives the method; any other value lacks it
and a `TypeError` is thrown. -/
def optStrMethod (v : Option Json) (f : String → String) : Except Unit (Option String) :=
  match v with
  | none => .ok none
  | some .null => .ok none
  | some (.str s) => .ok (some (f s))
  | some _ => .error ()

/-- The object literal `formatSEPA` returns. -/
structure SEPAPayment where
  paymentType : String
  creditorName : Option Json
  creditorIBAN : Option Json
  amount : Option Json
  currency : Json
  remittanceInformation : Option Json
  executionDate : String
deriving DecidableEq

/-- Source `formatSEPA`; `nowIso` is the string `new Date().toISOString()`
produced during the call. -/
def formatSEPA (nowIso : String) (intent : RawPaymentIntent) : SEPAPayment :=
  { paymentType := "SEPA"
    creditorName := intent.recipientName
    creditorIBAN := intent.iban
    amount := intent.amount
    currency := jsOr intent.currency (.str "EUR")
    remittanceInformation := intent.reference
    executionDate := splitHeadAtT nowIso }

/-- The object literal `formatFasterPayments` returns. -/
structure FasterPaymentsPayment where
  paymentType : String
  payeeName : Option Json
  payeeAccountNumber : Option String
  sortCode : Option String
  amount : Option Json
  currency : String
  reference : Option String
  paymentDateTime : String
deriving DecidableEq

/-- Source `formatFasterPayments`: the account number is
`intent.iban?.replace(/[^0-9]/g, '').slice(-8)`, the sort code is
`intent.iban?.replace(/[^0-9]/g, '').slice(-14, -8)` and the reference is
`intent.reference?.slice(0, 18)`; a non-string non-null `iban` or
`reference` makes the method call throw a `TypeError`. -/
def formatFasterPayments (nowIso : String) (intent : RawPaymentIntent) :
    Except Unit FasterPaymentsPayment :=
  match optStrMethod intent.iban (fun s => jsSlice (digitsOf s) (-8) none),
        optStrMethod intent.iban (fun s => jsSlice (digitsOf s) (-14) (some (-8))),
        optStrMethod intent.reference (fun s => jsSlice s 0 (some 18)) with
  | .ok acct, .ok sortc, .ok ref =>
    .ok { paymentType := "FasterPayments"
          payeeName := intent.recipientName
          payeeAccountNumber := acct
          sortCode := sortc
          amount := intent.amount
          currency := "GBP"
          reference := ref
          paymentDateTime := nowIso }
  | _, _, _ => .error ()

/-- The tagged variant the route's formatting step produces (`none` at the
use sites below models the `null` / `Unformatted` outcome). -/
inductive FormattedPayment where
  | sepa (p : SEPAPayment) : FormattedPayment
  | fasterPayments (p : FasterPaymentsPayment) : FormattedPayment
deriving DecidableEq

/-- The route handler's formatting step: `formattedPayment` starts as
`null` and is set only when `suggestedPaymentType` is the string `'SEPA'`
or `'FasterPayments'`; an exception from a formatter escapes to the
handler's catch. -/
def routeFormat (nowIso : String) (intent : RawPaymentIntent) :
    Except Unit (Option FormattedPayment) :=
  if intent.suggestedPaymentType = some (.str "SEPA") then
    .ok (some (.sepa (formatSEPA nowIso intent)))
  else if intent.suggestedPaymentType = some (.str "FasterPayments") then
    match formatFasterPayments nowIso intent with
    | .ok p => .ok (some (.fasterPayments p))
    | .error e => .error e
  else .ok none

instance {ε α : Type _} [DecidableEq ε] [DecidableEq α] : DecidableEq (Except ε α)
  | .error e1, .error e2 =>
    if h : e1 = e2 then isTrue (h ▸ rfl) else isFalse (fun e => h (Except.error.inj e))
  | .ok a1, .ok a2 =>
    if h : a1 = a2 then isTrue (h ▸ rfl) else isFalse (fun e => h (Except.ok.inj e))
  | .error _, .ok _ => isFalse (fun h => nomatch h)
  | .ok _, .error _ => isFalse (fun h => nomatch h)

/-- Everything outside the handler that determines one request's run: the
outcome of `request.json()` (`error` = the body was not valid JSON and
`json()` threw), the two gateway call outcomes, and the instant. -/
structure PostInputs where
  body : Except Unit Json
  extractOutcome : GatewayOutcome
  scoreOutcome : GatewayOutcome
  nowIso : String
deriving DecidableEq

/-- The `data` object of a successful response. -/
structure ResponseData where
  originalInput : String
  parsedIntent : RawPaymentIntent
  fraudAnalysis : FraudFlagsRaw
  formattedPayment : Option FormattedPayment
  processingTimestamp : String
deriving DecidableEq

/-- The three responses the handler can send: status 400 with
`'Invalid payment instruction'`, status 500 with
`'Failed to process payment intent'`, or the success payload. -/
inductive PostResponse where
  | clientError : PostResponse
  | serverError : PostResponse
  | success (data : ResponseData) : PostResponse
deriving DecidableEq

/-- The `POST` route handler.  Destructuring `userInput` from a `null`
body throws (caught by the outer catch, a 500).  The guard
`if (!userInput || typeof userInput !== 'string')` sends the 400 exactly
when the value is not a string or is the falsy empty string. -/
def POST (inp : PostInputs) : PostResponse :=
  match inp.body with
  | .error _ => .serverError
  | .ok body =>
    match body.getProp "userInput" with
    | .error _ => .serverError
    | .ok userInput =>
      match userInput with
      | some (.str s) =>
        if s = "" then .clientError
        else
          match processPaymentIntent ⟨inp.extractOutcome, inp.scoreOutcome⟩ with
          | .error _ => .serverError
          | .ok (intent, fraudAnalysis) =>
            match routeFormat inp.nowIso intent with
            | .error _ => .serverError
            | .ok formattedPayment =>
              .success { originalInput := s
                         parsedIntent := intent
                         fraudAnalysis := fraudAnalysis
                         formattedPayment := formattedPayment
                         processingTimestamp := inp.nowIso }
      | _ => .clientError

example : jsonParse "\x7b\"score\": 0\x7d" = some (.obj [("score", .num ⟨0, 0⟩)]) := by decide

example : jsonParse "42" = some (.num ⟨42, 0⟩) := by decide

example : jsonParse "not json" = none := by decide

example : stripFences "```json\n\x7b\x7d\n```" = "\x7b\x7d" := by decide

example : jsSlice "2960161331926819" (-8) none = "31926819" := by decide

example : jsSlice "2960161331926819" (-14) (some (-8)) = "601613" := by decide

/-! ## Vocabulary of the specification

These definitions follow the spec's words, to be compared with what the
embedded code computes. -/

/-- Whether a response parses, after fence stripping, as a "well-formed
structured record": a JSON object, as the spec's target schemas are. -/
def parsesAsTargetRecord (s : String) : Bool :=
  match jsonParse (stripFences s) with
  | some (.obj _) => true
  | _ => false

/-- The spec's banding policy — score < 30 → low, 30–69 → medium,
≥ 70 → high — stated on an assessment; vacuously true when the score is
not a number. -/
def bandingConsistent (f : FraudFlagsRaw) : Bool :=
  match f.score with
  | .num q =>
    if q.ltInt 30 then decide (f.riskLevel = some (.str "low"))
    else if q.ltInt 70 then decide (f.riskLevel = some (.str "medium"))
    else decide (f.riskLevel = some (.str "high"))
  | _ => true

/-- The last eight characters of a string (all of it when shorter). -/
def lastEight (s : String) : String := ⟨s.data.drop (s.data.length - 8)⟩

/-- The characters 14-from-end through 8-from-end: clamped at the front
when the string is shorter than 14, empty when it is 8 or shorter. -/
def fromEnd14to8 (s : String) : String :=
  ⟨(s.data.drop (s.data.length - 14)).take ((s.data.length - 8) - (s.data.length - 14))⟩

/-- Did an `Except`-valued step succeed? -/
def isOkResult : Except ε α → Bool
  | .ok _ => true
  | .error _ => false

/-- Is the value a JavaScript string? -/
def isStringVal : Option Json → Bool
  | some (.str _) => true
  | _ => false

/-! ## Helper lemmas -/

/-- Evaluates `slice(-8)`: it is the length-≤-8 suffix. -/
theorem jsSlice_neg8 (s : String) : jsSlice s (-8) none = lastEight s := by
  unfold jsSlice lastEight jsSliceIdx
  have h : ((s.data.length : Int) + -8).toNat = s.data.length - 8 := by omega
  simp only [show ((-8 : Int) < 0) = True from by decide, if_true]
  rw [h]
  congr 1
  have hlen : (s.data.drop (s.data.length - 8)).length = s.data.length - (s.data.length - 8) :=
    List.length_drop _ _
  calc (s.data.drop (s.data.length - 8)).take (s.data.length - (s.data.length - 8))
      = (s.data.drop (s.data.length - 8)).take (s.data.drop (s.data.length - 8)).length := by
        rw [hlen]
    _ = s.data.drop (s.data.length - 8) := List.take_length _

/-- Evaluates `slice(-14, -8)`: it is the 14-from-end to 8-from-end segment. -/
theorem jsSlice_neg14_neg8 (s : String) : jsSlice s (-14) (some (-8)) = fromEnd14to8 s := by
  unfold jsSlice fromEnd14to8 jsSliceIdx
  have h14 : ((s.data.length : Int) + -14).toNat = s.data.length - 14 := by omega
  have h8 : ((s.data.length : Int) + -8).toNat = s.data.length - 8 := by omega
  simp only [show ((-14 : Int) < 0) = True from by decide,
    show ((-8 : Int) < 0) = True from by decide, if_true]
  rw [h14, h8]

/-- Evaluates `slice(0, 18)`: it keeps at most 18 characters. -/
theorem jsSlice_0_18_length (s : String) : (jsSlice s 0 (some 18)).length ≤ 18 := by
  unfold jsSlice jsSliceIdx String.length
  simp only [show ¬((0 : Int) < 0) from by decide, if_false,
    show ¬((18 : Int) < 0) from by decide, List.length_take, List.length_drop]
  have h0 : (0 : Int).toNat = 0 := rfl
  have h18 : (18 : Int).toNat = 18 := rfl
  rw [h0, h18]
  omega

/-- Computes `takeWhile (· ≠ 'T')` of `l₁ ++ 'T' :: l₂`: it is `l₁` when `l₁` has
no `'T'`. -/
theorem takeWhile_until_T (l1 l2 : List Char) (h : 'T' ∉ l1) :
    (l1 ++ 'T' :: l2).takeWhile (fun c => c ≠ 'T') = l1 := by
  induction l1 with
  | nil => simp [List.takeWhile]
  | cons c cs ih =>
    simp only [List.mem_cons, not_or] at h
    have hct : ¬c = 'T' := fun e => h.1 e.symm
    simp only [List.cons_append, List.takeWhile_cons, decide_not, hct, decide_False,
      Bool.not_false, if_true]
    simpa using ih h.2

/-- The fraud-analysis step never throws once the gateway call has
returned: every branch after `const response = ...` produces a value. -/
theorem analyzeFraudRisk_returned_isOk (c : Option String) :
    isOkResult (analyzeFraudRisk (.returned c)) = true := by
  cases c with
  | none => rfl
  | some s =>
    by_cases hs : s = ""
    · subst hs; rfl
    · simp only [analyzeFraudRisk]
      rw [if_neg hs]
      split <;> rfl

/-- C1 (amended).  `analyzeFraudRisk` does not enforce the spec's banding:
whenever the scoring response parses (to a non-null value), the returned
`riskLevel` is the response's `riskLevel` member passed through verbatim,
so it can disagree with the numeric score's band.  The banding does hold
for the two fallback assessments, whose riskLevel is medium with
score 50. -/
theorem c1_riskLevelPassthrough :
    (∀ s j, s ≠ "" → jsonParse (stripFences s) = some j → j ≠ Json.null →
      ∃ f, analyzeFraudRisk (.returned (some s)) = .ok f ∧
        f.riskLevel = j.member "riskLevel") ∧
    bandingConsistent fallbackUnavailable = true ∧
    bandingConsistent fallbackAnalysisError = true := by
  refine ⟨?_, by decide, by decide⟩
  intro s j hs hp hj
  simp only [analyzeFraudRisk]
  rw [if_neg hs, hp]
  cases j with
  | null => exact absurd rfl hj
  | bool b => exact ⟨_, rfl, rfl⟩
  | num n => exact ⟨_, rfl, rfl⟩
  | str t => exact ⟨_, rfl, rfl⟩
  | arr l => exact ⟨_, rfl, rfl⟩
  | obj kvs => exact ⟨_, rfl, rfl⟩

/-- Witness for C1 at a parsed scoring response. -/
theorem c1_riskLevelPassthrough_witness :
    ∃ f, analyzeFraudRisk (.returned (some "\x7b\"riskLevel\": \"high\", \"score\": 80\x7d")) =
        .ok f ∧
      f.riskLevel =
        (Json.obj [("riskLevel", Json.str "high"), ("score", Json.num ⟨80, 0⟩)]).member
          "riskLevel" :=
  c1_riskLevelPassthrough.1 "\x7b\"riskLevel\": \"high\", \"score\": 80\x7d"
    (Json.obj [("riskLevel", Json.str "high"), ("score", Json.num ⟨80, 0⟩)])
    (by decide) (by decide) (by decide)

/-- Counterexample to C1 as stated: a scoring response declaring
`riskLevel: "low"` with `score: 90` is returned unchanged, and violates
the banding (a score ≥ 70 would have to be `high`). -/
theorem c1_bandingCounterexample :
    analyzeFraudRisk (.returned (some "\x7b\"riskLevel\": \"low\", \"score\": 90\x7d")) =
      .ok ⟨some (.str "low"), .arr [], .num ⟨90, 0⟩⟩ ∧
    bandingConsistent ⟨some (.str "low"), .arr [], .num ⟨90, 0⟩⟩ = false := by decide

/-- C2 (amended).  When extraction succeeds, the pipeline returns a result
for every scoring gateway outcome in which the call itself returns —
empty, unparseable or parseable content alike; but when the scoring
gateway call itself throws, the exception reaches the orchestrator's
catch and the pipeline fails. -/
theorem c2_scoringDegrades :
    (∀ (e : GatewayOutcome) (c : Option String) (intent : RawPaymentIntent),
      extractPaymentIntent e = .ok intent →
      isOkResult (processPaymentIntent ⟨e, .returned c⟩) = true) ∧
    (∀ (e : GatewayOutcome) (intent : RawPaymentIntent),
      extractPaymentIntent e = .ok intent →
      processPaymentIntent ⟨e, .threw⟩ = .error ()) := by
  constructor
  · intro e c intent he
    simp only [processPaymentIntent, he]
    have h2 := analyzeFraudRisk_returned_isOk c
    rcases hA : analyzeFraudRisk (.returned c) with err | f
    · rw [hA] at h2
      simp [isOkResult] at h2
    · rfl
  · intro e intent he
    simp only [processPaymentIntent, he]
    rfl

/-- Witness for C2: a successful extraction with a scoring gateway that
returns no content still yields a pipeline result. -/
theorem c2_scoringDegrades_witness :
    isOkResult (processPaymentIntent ⟨.returned (some "\x7b\x7d"), .returned none⟩) = true :=
  c2_scoringDegrades.1 (.returned (some "\x7b\x7d")) none
    ⟨none, none, none, some (.str "EUR"), none, none, none⟩ (by decide)

/-- Counterexample to C2 as stated: extraction succeeds on this input,
yet the pipeline fails when the scoring gateway call itself throws. -/
theorem c2_scoringThrowCounterexample :
    isOkResult (extractPaymentIntent (.returned (some "\x7b\x7d"))) = true ∧
    processPaymentIntent ⟨.returned (some "\x7b\x7d"), .threw⟩ = .error () := by decide

/-- C3 (amended).  For a parsed scoring response whose `score` member is
the number `q`, the returned score is `q` when `q` is non-zero, and the
default 50 when `q` is zero (the JavaScript `||` default fires on every
falsy value, not only on an absent key); an absent `score` key also
yields 50. -/
theorem c3_scoreDefaulting :
    (∀ s j q, s ≠ "" → jsonParse (stripFences s) = some j →
      j.member "score" = some (.num q) →
      ∃ f, analyzeFraudRisk (.returned (some s)) = .ok f ∧
        f.score = (if q.isZero then Json.num ⟨50, 0⟩ else Json.num q)) ∧
    (∀ s j, s ≠ "" → jsonParse (stripFences s) = some j → j ≠ Json.null →
      j.member "score" = none →
      ∃ f, analyzeFraudRisk (.returned (some s)) = .ok f ∧
        f.score = Json.num ⟨50, 0⟩) := by
  constructor
  · intro s j q hs hp hm
    simp only [analyzeFraudRisk]
    rw [if_neg hs, hp]
    cases j with
    | null => simp [Json.member] at hm
    | bool b => simp [Json.member] at hm
    | num n => simp [Json.member] at hm
    | str t => simp [Json.member] at hm
    | arr l => simp [Json.member] at hm
    | obj kvs =>
      refine ⟨_, rfl, ?_⟩
      show jsOr ((Json.obj kvs).member "score") (.num ⟨50, 0⟩) = _
      rw [hm]
      unfold jsOr
      cases hz : q.isZero <;> simp [Json.truthy, hz]
  · intro s j hs hp hj hm
    simp only [analyzeFraudRisk]
    rw [if_neg hs, hp]
    cases j with
    | null => exact absurd rfl hj
    | bool b =>
      refine ⟨_, rfl, ?_⟩
      show jsOr ((Json.bool b).member "score") (.num ⟨50, 0⟩) = _
      rw [hm]
      rfl
    | num n =>
      refine ⟨_, rfl, ?_⟩
      show jsOr ((Json.num n).member "score") (.num ⟨50, 0⟩) = _
      rw [hm]
      rfl
    | str t =>
      refine ⟨_, rfl, ?_⟩
      show jsOr ((Json.str t).member "score") (.num ⟨50, 0⟩) = _
      rw [hm]
      rfl
    | arr l =>
      refine ⟨_, rfl, ?_⟩
      show jsOr ((Json.arr l).member "score") (.num ⟨50, 0⟩) = _
      rw [hm]
      rfl
    | obj kvs =>
      refine ⟨_, rfl, ?_⟩
      show jsOr ((Json.obj kvs).member "score") (.num ⟨50, 0⟩) = _
      rw [hm]
      rfl

/-- Witness for C3 at a response scoring 25. -/
theorem c3_scoreDefaulting_witness :
    ∃ f, analyzeFraudRisk (.returned (some "\x7b\"score\": 25\x7d")) = .ok f ∧
      f.score = (if (⟨25, 0⟩ : JNum).isZero then Json.num ⟨50, 0⟩ else Json.num ⟨25, 0⟩) :=
  c3_scoreDefaulting.1 "\x7b\"score\": 25\x7d" (Json.obj [("score", Json.num ⟨25, 0⟩)])
    ⟨25, 0⟩ (by decide) (by decide) (by decide)

/-- Counterexample to C3 as stated: a well-formed response with the
numeric score 0 present does not get score 0 back — `|| 50` replaces the
falsy 0 with 50. -/
theorem c3_scoreZeroCounterexample :
    (Json.obj [("score", Json.num ⟨0, 0⟩)]).member "score" = some (.num ⟨0, 0⟩) ∧
    analyzeFraudRisk (.returned (some "\x7b\"score\": 0\x7d")) =
      .ok ⟨none, .arr [], .num ⟨50, 0⟩⟩ ∧
    Json.num ⟨50, 0⟩ ≠ Json.num ⟨0, 0⟩ := by decide

/-- C4 (amended).  When the scoring gateway returns no content (or the
falsy empty string), the result is exactly the `Analysis unavailable`
fallback; when the fence-stripped content fails `JSON.parse` (or parses
to JSON `null`, whose property access throws into the same catch), the
result is exactly the `Analysis error` fallback.  Content that parses as
non-record JSON takes neither fallback (see the counterexample). -/
theorem c4_scoringFallbacks :
    (∀ c : Option String, (c = none ∨ c = some "") →
      analyzeFraudRisk (.returned c) = .ok fallbackUnavailable) ∧
    (∀ s : String, s ≠ "" →
      (jsonParse (stripFences s) = none ∨ jsonParse (stripFences s) = some Json.null) →
      analyzeFraudRisk (.returned (some s)) = .ok fallbackAnalysisError) := by
  constructor
  · rintro c (rfl | rfl) <;> rfl
  · intro s hs hparse
    simp only [analyzeFraudRisk]
    rw [if_neg hs]
    rcases hparse with h | h <;> rw [h]

/-- Witness for C4 on absent content and on unparseable content. -/
theorem c4_scoringFallbacks_witness :
    analyzeFraudRisk (.returned none) = .ok fallbackUnavailable ∧
    analyzeFraudRisk (.returned (some "oops not json")) = .ok fallbackAnalysisError :=
  ⟨c4_scoringFallbacks.1 none (Or.inl rfl),
   c4_scoringFallbacks.2 "oops not json" (by decide) (Or.inl (by decide))⟩

/-- Counterexample to C4 as stated: `"just text"` (a JSON string literal)
does not parse as the target schema, yet the result is the
field-defaulted record, not the `Analysis error` fallback. -/
theorem c4_nonRecordCounterexample :
    parsesAsTargetRecord "\"just text\"" = false ∧
    analyzeFraudRisk (.returned (some "\"just text\"")) =
      .ok ⟨none, .arr [], .num ⟨50, 0⟩⟩ ∧
    (⟨none, Json.arr [], Json.num ⟨50, 0⟩⟩ : FraudFlagsRaw) ≠ fallbackAnalysisError ∧
    (⟨none, Json.arr [], Json.num ⟨50, 0⟩⟩ : FraudFlagsRaw) ≠ fallbackUnavailable := by
  decide

/-- C5 (amended).  Extraction fails exactly when the gateway returns no
content (or the falsy empty string) or the fence-stripped content fails
`JSON.parse` or parses to JSON `null`; conformance to the target schema
is not checked (non-record JSON is accepted, see the counterexample).
Every extraction failure makes the whole pipeline fail with the single
rethrown error — no partial result. -/
theorem c5_extractionExactness :
    isOkResult (extractPaymentIntent (.returned none)) = false ∧
    (∀ s : String,
      isOkResult (extractPaymentIntent (.returned (some s))) = false ↔
        (s = "" ∨ jsonParse (stripFences s) = none ∨
          jsonParse (stripFences s) = some Json.null)) ∧
    (∀ i : ProcessorInputs, isOkResult (extractPaymentIntent i.extractOutcome) = false →
      processPaymentIntent i = .error ()) := by
  refine ⟨rfl, ?_, ?_⟩
  · intro s
    constructor
    · intro hfail
      by_cases hs : s = ""
      · exact Or.inl hs
      · simp only [extractPaymentIntent] at hfail
        rw [if_neg hs] at hfail
        rcases hp : jsonParse (stripFences s) with _ | j
        · exact Or.inr (Or.inl rfl)
        · rw [hp] at hfail
          cases j with
          | null => exact Or.inr (Or.inr rfl)
          | bool b => simp [isOkResult] at hfail
          | num n => simp [isOkResult] at hfail
          | str t => simp [isOkResult] at hfail
          | arr l => simp [isOkResult] at hfail
          | obj kvs => simp [isOkResult] at hfail
    · rintro (rfl | hp | hp)
      · rfl
      · simp only [extractPaymentIntent]
        by_cases hs : s = ""
        · rw [if_pos hs]; rfl
        · rw [if_neg hs, hp]; rfl
      · simp only [extractPaymentIntent]
        by_cases hs : s = ""
        · rw [if_pos hs]; rfl
        · rw [if_neg hs, hp]; rfl
  · intro i hfail
    unfold processPaymentIntent
    rcases hE : extractPaymentIntent i.extractOutcome with err | it
    · rfl
    · rw [hE] at hfail
      simp [isOkResult] at hfail

/-- Witness for C5: a bare code fence strips to the empty string, fails
`JSON.parse`, and the whole pipeline fails. -/
theorem c5_extractionExactness_witness :
    processPaymentIntent ⟨.returned (some "```"), .returned none⟩ = .error () :=
  c5_extractionExactness.2.2 ⟨.returned (some "```"), .returned none⟩ (by decide)

/-- Counterexample to C5 as stated: `"7"` is valid JSON but no structured
record, yet extraction succeeds (all fields default). -/
theorem c5_nonRecordCounterexample :
    parsesAsTargetRecord "7" = false ∧
    isOkResult (extractPaymentIntent (.returned (some "7"))) = true := by decide

/-- Evaluates `v?.method(...)` on an interface-conforming optional string field
never throws: it maps the function over the option. -/
theorem optStrMethod_map_str (v : Option String) (f : String → String) :
    optStrMethod (v.map Json.str) f = .ok (v.map f) := by
  cases v <;> rfl

/-- On an interface-conforming intent, `formatFasterPayments` always
succeeds, and each field is the evident map of the intent's field. -/
theorem formatFasterPayments_toRaw (now : String) (i : PaymentIntent) :
    formatFasterPayments now i.toRaw = .ok
      { paymentType := "FasterPayments"
        payeeName := i.recipientName.map Json.str
        payeeAccountNumber := i.iban.map (fun s => jsSlice (digitsOf s) (-8) none)
        sortCode := i.iban.map (fun s => jsSlice (digitsOf s) (-14) (some (-8)))
        amount := i.amount.map Json.num
        currency := "GBP"
        reference := i.reference.map (fun s => jsSlice s 0 (some 18))
        paymentDateTime := now } := by
  unfold formatFasterPayments
  rw [show (PaymentIntent.toRaw i).iban = i.iban.map Json.str from rfl,
    show (PaymentIntent.toRaw i).reference = i.reference.map Json.str from rfl,
    optStrMethod_map_str, optStrMethod_map_str, optStrMethod_map_str]
  rfl

/-- C6 (confirmed).  For every intent suggesting Faster Payments whose
IBAN is present, formatting yields a Faster Payments payment with
currency forced to GBP, account number the last 8 digits of the
digit-stripped IBAN, sort code its 14-from-end through 8-from-end digits
(shorter digit strings give shorter or empty substrings, not an error),
and a reference of at most 18 characters. -/
theorem c6_fasterPaymentsFormat (i : PaymentIntent) (ib now : String)
    (hty : i.suggestedPaymentType = .FasterPayments) (hib : i.iban = some ib) :
    ∃ p, routeFormat now i.toRaw = .ok (some (.fasterPayments p)) ∧
      p.currency = "GBP" ∧
      p.payeeAccountNumber = some (lastEight (digitsOf ib)) ∧
      p.sortCode = some (fromEnd14to8 (digitsOf ib)) ∧
      (∀ r, p.reference = some r → r.length ≤ 18) := by
  have hty2 : (PaymentIntent.toRaw i).suggestedPaymentType =
      some (Json.str "FasterPayments") := by
    rw [show (PaymentIntent.toRaw i).suggestedPaymentType =
      some (Json.str i.suggestedPaymentType.toStr) from rfl, hty]
    rfl
  unfold routeFormat
  rw [hty2, if_neg (by decide), if_pos rfl, formatFasterPayments_toRaw]
  refine ⟨_, rfl, rfl, ?_, ?_, ?_⟩
  · show i.iban.map (fun s => jsSlice (digitsOf s) (-8) none) = _
    rw [hib]
    show some (jsSlice (digitsOf ib) (-8) none) = _
    rw [jsSlice_neg8]
  · show i.iban.map (fun s => jsSlice (digitsOf s) (-14) (some (-8))) = _
    rw [hib]
    show some (jsSlice (digitsOf ib) (-14) (some (-8))) = _
    rw [jsSlice_neg14_neg8]
  · intro r hr
    have hr2 : i.reference.map (fun s => jsSlice s 0 (some 18)) = some r := hr
    cases href : i.reference with
    | none => rw [href] at hr2; exact nomatch hr2
    | some rr =>
      rw [href] at hr2
      have := Option.some.inj hr2
      rw [← this]
      exact jsSlice_0_18_length rr

/-- Witness for C6 at the spec's UK example. -/
theorem c6_fasterPaymentsFormat_witness :
    ∃ p, routeFormat "2026-10-11T12:00:00.000Z"
        (PaymentIntent.toRaw ⟨some "Mary", some "GB29NWBK60161331926819", some ⟨120, 0⟩,
          none, some "rent payment for March apartment", ⟨9, -1⟩, .FasterPayments⟩) =
        .ok (some (.fasterPayments p)) ∧
      p.currency = "GBP" ∧
      p.payeeAccountNumber = some (lastEight (digitsOf "GB29NWBK60161331926819")) ∧
      p.sortCode = some (fromEnd14to8 (digitsOf "GB29NWBK60161331926819")) ∧
      (∀ r, p.reference = some r → r.length ≤ 18) :=
  c6_fasterPaymentsFormat
    ⟨some "Mary", some "GB29NWBK60161331926819", some ⟨120, 0⟩, none,
      some "rent payment for March apartment", ⟨9, -1⟩, .FasterPayments⟩
    "GB29NWBK60161331926819" "2026-10-11T12:00:00.000Z" rfl rfl

/-- C7 (confirmed).  The route's formatting step is total on
interface-conforming intents — it always yields one of the three
variants — and an Unknown suggested type yields the Unformatted (null)
variant. -/
theorem c7_formatTotalAndUnknown (i : PaymentIntent) (now : String) :
    ∃ r, routeFormat now i.toRaw = .ok r ∧
      (i.suggestedPaymentType = .Unknown → r = none) ∧
      (r = none ∨ (∃ p, r = some (.sepa p)) ∨ (∃ p, r = some (.fasterPayments p))) := by
  cases hty : i.suggestedPaymentType with
  | SEPA =>
    have hty2 : (PaymentIntent.toRaw i).suggestedPaymentType = some (Json.str "SEPA") := by
      rw [show (PaymentIntent.toRaw i).suggestedPaymentType =
        some (Json.str i.suggestedPaymentType.toStr) from rfl, hty]
      rfl
    unfold routeFormat
    rw [hty2, if_pos rfl]
    refine ⟨_, rfl, ?_, Or.inr (Or.inl ⟨_, rfl⟩)⟩
    intro h
    exact absurd h (by decide)
  | FasterPayments =>
    have hty2 : (PaymentIntent.toRaw i).suggestedPaymentType =
        some (Json.str "FasterPayments") := by
      rw [show (PaymentIntent.toRaw i).suggestedPaymentType =
        some (Json.str i.suggestedPaymentType.toStr) from rfl, hty]
      rfl
    unfold routeFormat
    rw [hty2, if_neg (by decide), if_pos rfl, formatFasterPayments_toRaw]
    refine ⟨_, rfl, ?_, Or.inr (Or.inr ⟨_, rfl⟩)⟩
    intro h
    exact absurd h (by decide)
  | Unknown =>
    have hty2 : (PaymentIntent.toRaw i).suggestedPaymentType =
        some (Json.str "Unknown") := by
      rw [show (PaymentIntent.toRaw i).suggestedPaymentType =
        some (Json.str i.suggestedPaymentType.toStr) from rfl, hty]
      rfl
    unfold routeFormat
    rw [hty2, if_neg (by decide), if_neg (by decide)]
    exact ⟨none, rfl, fun _ => rfl, Or.inl rfl⟩

/-- Witness for C7 at an Unknown-type intent. -/
theorem c7_formatTotalAndUnknown_witness :
    ∃ r, routeFormat "2026-01-01T00:00:00.000Z"
        (PaymentIntent.toRaw ⟨none, none, none, none, none, ⟨1, 0⟩, .Unknown⟩) = .ok r ∧
      ((⟨none, none, none, none, none, ⟨1, 0⟩, .Unknown⟩ :
          PaymentIntent).suggestedPaymentType = .Unknown → r = none) ∧
      (r = none ∨ (∃ p, r = some (.sepa p)) ∨ (∃ p, r = some (.fasterPayments p))) :=
  c7_formatTotalAndUnknown ⟨none, none, none, none, none, ⟨1, 0⟩, .Unknown⟩
    "2026-01-01T00:00:00.000Z"

/-- C8 (amended).  For every intent suggesting SEPA, formatting returns a
SEPA payment copying recipient, IBAN, amount and reference verbatim;
`currency` is the intent's currency when that is present and non-empty,
and `"EUR"` when it is absent — or empty, since the JavaScript `||`
default also fires on the falsy empty string; `executionDate` is the
date part of the current instant (the ISO string before its `'T'`), with
no time component. -/
theorem c8_sepaFormat (i : PaymentIntent) (d t : String)
    (hty : i.suggestedPaymentType = .SEPA) (hd : 'T' ∉ d.data) :
    ∃ p, routeFormat (d ++ "T" ++ t) i.toRaw = .ok (some (.sepa p)) ∧
      p.creditorName = i.recipientName.map Json.str ∧
      p.creditorIBAN = i.iban.map Json.str ∧
      p.amount = i.amount.map Json.num ∧
      p.remittanceInformation = i.reference.map Json.str ∧
      p.currency = (match i.currency with
        | some c => if c = "" then Json.str "EUR" else Json.str c
        | none => Json.str "EUR") ∧
      p.executionDate = d := by
  have hty2 : (PaymentIntent.toRaw i).suggestedPaymentType = some (Json.str "SEPA") := by
    rw [show (PaymentIntent.toRaw i).suggestedPaymentType =
      some (Json.str i.suggestedPaymentType.toStr) from rfl, hty]
    rfl
  unfold routeFormat
  rw [hty2, if_pos rfl]
  refine ⟨_, rfl, rfl, rfl, rfl, rfl, ?_, ?_⟩
  · show jsOr (i.currency.map Json.str) (Json.str "EUR") = _
    cases i.currency with
    | none => rfl
    | some c =>
      by_cases hc : c = ""
      · subst hc; rfl
      · simp [jsOr, Json.truthy, hc]
  · show splitHeadAtT (d ++ "T" ++ t) = d
    unfold splitHeadAtT
    have hdata : (d ++ "T" ++ t).data = d.data ++ 'T' :: t.data := by
      simp [String.data_append]
    rw [hdata, takeWhile_until_T _ _ hd]

/-- Witness for C8 at the spec's dinner example. -/
theorem c8_sepaFormat_witness :
    ∃ p, routeFormat ("2026-10-11" ++ "T" ++ "12:00:00.000Z")
        (PaymentIntent.toRaw ⟨some "John", none, some ⟨50, 0⟩, some "EUR", some "dinner",
          ⟨9, -1⟩, .SEPA⟩) = .ok (some (.sepa p)) ∧
      p.creditorName = (some "John" : Option String).map Json.str ∧
      p.creditorIBAN = (none : Option String).map Json.str ∧
      p.amount = (some (⟨50, 0⟩ : JNum) : Option JNum).map Json.num ∧
      p.remittanceInformation = (some "dinner" : Option String).map Json.str ∧
      p.currency = (match (some "EUR" : Option String) with
        | some c => if c = "" then Json.str "EUR" else Json.str c
        | none => Json.str "EUR") ∧
      p.executionDate = "2026-10-11" :=
  c8_sepaFormat ⟨some "John", none, some ⟨50, 0⟩, some "EUR", some "dinner", ⟨9, -1⟩, .SEPA⟩
    "2026-10-11" "12:00:00.000Z" rfl (by decide)

/-- Counterexample to C8 as stated: a present-but-empty currency is not
copied — the `||` default replaces it with `"EUR"`. -/
theorem c8_emptyCurrencyCounterexample :
    (⟨none, none, none, some "", none, ⟨0, 0⟩, .SEPA⟩ : PaymentIntent).currency = some "" ∧
    (formatSEPA "2026-10-11T00:00:00.000Z"
        (PaymentIntent.toRaw ⟨none, none, none, some "", none, ⟨0, 0⟩, .SEPA⟩)).currency =
      Json.str "EUR" ∧
    Json.str "EUR" ≠ Json.str "" := by decide

/-- C10 (confirmed).  A Faster Payments intent with no IBAN still formats
without error: account number and sort code are `undefined` (absent, not
empty strings), while the other fields are produced as usual. -/
theorem c10_missingIban (i : PaymentIntent) (now : String)
    (hty : i.suggestedPaymentType = .FasterPayments) (hib : i.iban = none) :
    ∃ p, routeFormat now i.toRaw = .ok (some (.fasterPayments p)) ∧
      p.payeeAccountNumber = none ∧ p.sortCode = none ∧
      p.payeeName = i.recipientName.map Json.str ∧
      p.amount = i.amount.map Json.num ∧
      p.currency = "GBP" ∧
      p.reference = i.reference.map (fun s => jsSlice s 0 (some 18)) ∧
      p.paymentDateTime = now := by
  have hty2 : (PaymentIntent.toRaw i).suggestedPaymentType =
      some (Json.str "FasterPayments") := by
    rw [show (PaymentIntent.toRaw i).suggestedPaymentType =
      some (Json.str i.suggestedPaymentType.toStr) from rfl, hty]
    rfl
  unfold routeFormat
  rw [hty2, if_neg (by decide), if_pos rfl, formatFasterPayments_toRaw]
  refine ⟨_, rfl, ?_, ?_, rfl, rfl, rfl, rfl, rfl⟩
  · show i.iban.map (fun s => jsSlice (digitsOf s) (-8) none) = none
    rw [hib]
    rfl
  · show i.iban.map (fun s => jsSlice (digitsOf s) (-14) (some (-8))) = none
    rw [hib]
    rfl

/-- Witness for C10 at an IBAN-less UK intent. -/
theorem c10_missingIban_witness :
    ∃ p, routeFormat "2026-02-02T08:00:00.000Z"
        (PaymentIntent.toRaw ⟨some "cafe", none, some ⟨75, 0⟩, some "GBP", some "receipt",
          ⟨8, -1⟩, .FasterPayments⟩) = .ok (some (.fasterPayments p)) ∧
      p.payeeAccountNumber = none ∧ p.sortCode = none ∧
      p.payeeName = (some "cafe" : Option String).map Json.str ∧
      p.amount = (some (⟨75, 0⟩ : JNum) : Option JNum).map Json.num ∧
      p.currency = "GBP" ∧
      p.reference = (some "receipt" : Option String).map (fun s => jsSlice s 0 (some 18)) ∧
      p.paymentDateTime = "2026-02-02T08:00:00.000Z" :=
  c10_missingIban ⟨some "cafe", none, some ⟨75, 0⟩, some "GBP", some "receipt",
    ⟨8, -1⟩, .FasterPayments⟩ "2026-02-02T08:00:00.000Z" rfl rfl

/-- C9 (amended).  The handler rejects with the 400 client error exactly
when `userInput` is not a string or is falsy: every request body whose
`userInput` is a non-empty string proceeds past the guard (the response
is never the client error), but the empty string — although a string —
is also rejected, because `!userInput` is true for it. -/
theorem c9_userInputValidation :
    (∀ (inp : PostInputs) (b : Json) (s : String), inp.body = .ok b →
      b.getProp "userInput" = .ok (some (.str s)) → s ≠ "" →
      POST inp ≠ .clientError) ∧
    (∀ (inp : PostInputs) (b : Json) (v : Option Json), inp.body = .ok b →
      b.getProp "userInput" = .ok v →
      (isStringVal v = false ∨ v = some (.str "")) → POST inp = .clientError) := by
  constructor
  · intro inp b s hb hu hs
    unfold POST
    rw [hb]
    dsimp only
    rw [hu]
    dsimp only
    rw [if_neg hs]
    rcases hP : processPaymentIntent ⟨inp.extractOutcome, inp.scoreOutcome⟩ with err | ⟨it, fa⟩
    · simp
    · rcases hF : routeFormat inp.nowIso it with e | fp
      · simp [hF]
      · simp [hF]
  · intro inp b v hb hu hv
    unfold POST
    rw [hb]
    dsimp only
    rw [hu]
    rcases hv with hv | rfl
    · cases v with
      | none => rfl
      | some j =>
        cases j with
        | null => rfl
        | bool x => rfl
        | num x => rfl
        | str x => simp [isStringVal] at hv
        | arr x => rfl
        | obj x => rfl
    · rfl

/-- Witness for C9: a numeric `userInput` is rejected with the client
error. -/
theorem c9_userInputValidation_witness :
    POST ⟨.ok (.obj [("userInput", .num ⟨5, 0⟩)]), .returned none, .returned none,
      "2026-10-11T00:00:00.000Z"⟩ = .clientError :=
  c9_userInputValidation.2 _ (Json.obj [("userInput", .num ⟨5, 0⟩)]) (some (.num ⟨5, 0⟩))
    rfl (by decide) (Or.inl (by decide))

/-- Counterexample to C9 as stated: the empty string is a string, yet the
handler returns the client error instead of running the pipeline. -/
theorem c9_emptyStringCounterexample :
    (Json.obj [("userInput", Json.str "")]).getProp "userInput" = .ok (some (.str "")) ∧
    POST ⟨.ok (.obj [("userInput", .str "")]), .returned (some "\x7b\x7d"), .returned none,
      "2026-10-11T00:00:00.000Z"⟩ = .clientError := by decide
